import Mathlib

/-!
Verification of the CBT (computer-based test) engine of the encon school
application.

The gradebook merge (`mergedGrades` in src/app/dashboard/academics/page.tsx,
lines 69-109) is embedded directly from the source.  Scores are modelled as
rationals so that the JavaScript arithmetic on small exact values is
reproduced exactly.  A possibly-missing numeric field (`q.marks` may be
absent on a question object) is modelled as `Option ℚ`, and the JavaScript
coalescing expression `x || d` as `jsOr`.

The attempt-taking pages (start gate, timer, scoring engine, essay-result
recording) are not among the provided source files; where a claim is decided
by that code, the definition is modelled from the specification text and its
doc comment starts with "Modelled from the spec:".
-/

namespace EnconCbt

/-- The grading-period bucket of a test: the source strings
"1st CA", "2nd CA" and "Exam". -/
inductive TestCategory
  | firstCA
  | secondCA
  | exam
deriving DecidableEq, Repr

/-- An objective question as the gradebook merge sees it: only the
(possibly missing) `marks` field is consulted there. -/
structure ObjQuestion where
  marks : Option ℚ
deriving DecidableEq, Repr

/-- An essay question as the gradebook merge sees it: only the
(possibly missing) `marks` field is consulted there. -/
structure EssayQuestion where
  marks : Option ℚ
deriving DecidableEq, Repr

/-- The fields of a `CbtTest` record used by the gradebook merge. -/
structure CbtTest where
  id : String
  subject : String
  category : TestCategory
  resultsPublished : Bool
  objectiveQuestions : List ObjQuestion
  essayQuestions : List EssayQuestion
deriving DecidableEq, Repr

/-- One entry of `attempt.essayScores`: the merge sums the `score` fields of
`Object.values(attempt.essayScores)`, so the map is modelled by its list of
values. -/
structure EssayScoreEntry where
  score : ℚ
  feedback : String
deriving DecidableEq, Repr

/-- The fields of a `StudentTestAttempt` record used by the gradebook
merge. -/
structure StudentTestAttempt where
  studentRegNo : String
  testId : String
  totalScore : ℚ
  objectiveScore : ℚ
  essayScores : List EssayScoreEntry
deriving DecidableEq, Repr

/-- A per-subject grade row: `subject`, with nullable slots `firstCA`,
`secondCA`, `project`, `exam` (null modelled as `none`). -/
structure Grade where
  subject : String
  firstCA : Option ℚ
  secondCA : Option ℚ
  project : Option ℚ
  exam : Option ℚ
deriving DecidableEq, Repr

/-- JavaScript numeric coalescing `x || d`: a missing value or the value `0`
falls back to the default `d`. -/
def jsOr (x : Option ℚ) (d : ℚ) : ℚ :=
  match x with
  | none => d
  | some v => if v = 0 then d else v

/-- Line 84 of the merge: `test.objectiveQuestions.reduce((sum, q) => sum +
(q.marks || 1), 0)`, factored per question. -/
def objMarksCounted (q : ObjQuestion) : ℚ := jsOr q.marks 1

/-- Line 85 of the merge: `test.essayQuestions.reduce((sum, q) => sum +
(q.marks || 0), 0)`, factored per question. -/
def essayMarksCounted (q : EssayQuestion) : ℚ := jsOr q.marks 0

/-- `totalObjMarks` of the merge (line 84). -/
def totalObjMarks (t : CbtTest) : ℚ :=
  (t.objectiveQuestions.map objMarksCounted).sum

/-- `totalEssayMarks` of the merge (line 85). -/
def totalEssayMarks (t : CbtTest) : ℚ :=
  (t.essayQuestions.map essayMarksCounted).sum

/-- `totalTestMarks` of the merge (line 86). -/
def totalTestMarks (t : CbtTest) : ℚ :=
  totalObjMarks t + totalEssayMarks t

/-- The sum of the essay score values of an attempt:
`Object.values(attempt.essayScores).reduce((acc, s) => acc + s.score, 0)`. -/
def essayScoreSum (a : StudentTestAttempt) : ℚ :=
  (a.essayScores.map EssayScoreEntry.score).sum

/-- Lines 88-96 of the merge: the value `finalScoreOutOfCategory` that is
offered to the gradebook slot.  It is initialised to `attempt.totalScore` and
replaced by the category-scaled fraction only when `totalTestMarks > 0`. -/
def finalScoreOutOfCategory (t : CbtTest) (a : StudentTestAttempt) : ℚ :=
  if 0 < totalTestMarks t then
    let percentageScore := (a.objectiveScore + essayScoreSum a) / totalTestMarks t
    match t.category with
    | TestCategory.firstCA => percentageScore * 20
    | TestCategory.secondCA => percentageScore * 20
    | TestCategory.exam => percentageScore * 50
  else a.totalScore

/-- The slot of a grade row addressed by a test category (lines 98-104 pick
`firstCA`, `secondCA` or `exam`). -/
def gradeSlot (c : TestCategory) (g : Grade) : Option ℚ :=
  match c with
  | TestCategory.firstCA => g.firstCA
  | TestCategory.secondCA => g.secondCA
  | TestCategory.exam => g.exam

/-- Lines 98-104 of the merge: write `v` into the slot of `g` addressed by
`c` only when that slot is currently null. -/
def mergeSlot (c : TestCategory) (v : ℚ) (g : Grade) : Grade :=
  match c with
  | TestCategory.firstCA =>
      match g.firstCA with
      | none => { g with firstCA := some v }
      | some _ => g
  | TestCategory.secondCA =>
      match g.secondCA with
      | none => { g with secondCA := some v }
      | some _ => g
  | TestCategory.exam =>
      match g.exam with
      | none => { g with exam := some v }
      | some _ => g

/-- The fresh grade row pushed at line 80 when no row for the subject
exists: all four slots null. -/
def freshGrade (s : String) : Grade :=
  { subject := s, firstCA := none, secondCA := none, project := none, exam := none }

/-- Lines 78-104 of the merge body for one attempt: `baseGrades.find` locates
the first row with the subject of the test and the slot update is applied to
it in place; when no row matches, a fresh row is pushed at the end and then
updated.  Updating the first match (or appending) is expressed by
recursion. -/
def updateGrades (s : String) (c : TestCategory) (v : ℚ) : List Grade → List Grade
  | [] => [mergeSlot c v (freshGrade s)]
  | g :: gs =>
      if g.subject == s then mergeSlot c v g :: gs
      else g :: updateGrades s c v gs

/-- Lines 76-105 of the merge: look the test of the attempt up in `cbtTests`;
when it exists and its results are published, fold the category-scaled score
into the grade rows; otherwise leave the rows unchanged. -/
def mergeAttempt (cbtTests : List CbtTest) (grades : List Grade)
    (a : StudentTestAttempt) : List Grade :=
  match cbtTests.find? (fun t => t.id == a.testId) with
  | none => grades
  | some t =>
      if t.resultsPublished then
        updateGrades t.subject t.category (finalScoreOutOfCategory t a) grades
      else grades

/-- Lines 69-108: `mergedGrades` filters the attempts of the student by
registration number and folds each into a deep copy of the stored grade
rows. -/
def mergedGrades (cbtTests : List CbtTest) (studentTestAttempts : List StudentTestAttempt)
    (regNo : String) (grades : List Grade) : List Grade :=
  (studentTestAttempts.filter (fun a => a.studentRegNo == regNo)).foldl
    (mergeAttempt cbtTests) grades

/-- Read-back of a finished merge: the slot addressed by `c` of the first
grade row whose subject is `s` (`none` both when no row matches and when the
matching row has a null slot). -/
def mergedSlotValue (grades : List Grade) (s : String) (c : TestCategory) : Option ℚ :=
  match grades.find? (fun g => g.subject == s) with
  | none => none
  | some g => gradeSlot c g

/-- The multiplier the merge applies to the raw fraction: 20 for the two
continuous-assessment categories, 50 for an exam. -/
def categoryScale (c : TestCategory) : ℚ :=
  match c with
  | TestCategory.firstCA => 20
  | TestCategory.secondCA => 20
  | TestCategory.exam => 50

/-- The plain sum of the declared marks of all questions of a test, reading a
missing marks field as 0 (the denominator the specification describes). -/
def plainTotalMarks (t : CbtTest) : ℚ :=
  (t.objectiveQuestions.map (fun q => q.marks.getD 0)).sum
    + (t.essayQuestions.map (fun q => q.marks.getD 0)).sum

/-! Spec-modelled part: the attempt-taking page (start gate, timer, scoring
engine, essay-result recording) is not among the provided source files.  The
following definitions are modelled from the specification text. -/

/-- Modelled from the spec: the response contract of the external
essay-evaluation service. -/
structure EvaluatorResponse where
  score : ℚ
  feedback : String
  isCompliant : Bool
deriving DecidableEq, Repr

/-- Modelled from the spec: an essay question as the scoring engine sees it,
with its rubric maximum `marks`. -/
structure ScoredEssayQuestion where
  id : String
  marks : ℚ
deriving DecidableEq, Repr

/-- Modelled from the spec: the essay-result recording step of the scoring
engine (the take-test page is missing from the sources).  A question with no
answer is recorded as score 0 without calling the evaluator; a failed or
thrown evaluator call (`none`) is recorded as score 0 with the fallback
feedback; a returned score is clamped to the interval from 0 to the marks of
the question. -/
def recordEssayResult (q : ScoredEssayQuestion) (answer : String)
    (outcome : Option EvaluatorResponse) : EssayScoreEntry :=
  if answer = "" then
    { score := 0, feedback := "No answer submitted." }
  else
    match outcome with
    | none =>
        { score := 0, feedback := "<evaluation unavailable, requires manual review>" }
    | some r =>
        { score := max 0 (min r.score q.marks), feedback := r.feedback }

/-- Modelled from the spec: the essay-scoring pass over all essay questions of
a test.  Evaluator failures are absorbed inside the pass, so the pass always
returns `Except.ok`; no evaluator failure is propagated to the caller. -/
def scoreEssays (qs : List ScoredEssayQuestion) (answers : String → String)
    (outcomes : String → Option EvaluatorResponse) :
    Except String (List EssayScoreEntry) :=
  Except.ok (qs.map (fun q => recordEssayResult q (answers q.id) (outcomes q.id)))

/-- Modelled from the spec: the normalization step of the scoring engine.
When the total marks of the test are 0 the final percentage is 0; otherwise it
is the raw fraction times 100. -/
def finalPercentage (totalMarks rawPoints : ℚ) : ℚ :=
  if totalMarks = 0 then 0 else rawPoints / totalMarks * 100

/-- Modelled from the spec: the three score components persisted together at
submission. -/
structure ScoringResult where
  objectiveScore : ℚ
  essayResults : List EssayScoreEntry
  finalPct : ℚ
deriving DecidableEq, Repr

/-- Modelled from the spec: idempotent submission.  The persisted state of an
attempt holds at most one scoring result; submitting against an
already-submitted attempt is a no-op that keeps the stored result, and
submitting a fresh attempt stores the computed result. -/
def submitOnce (st : Option ScoringResult) (computed : ScoringResult) :
    Option ScoringResult :=
  match st with
  | some r => some r
  | none => some computed

/-- Modelled from the spec: the lifecycle status of a test; `opened` models
the source status string "Open". -/
inductive TestStatus
  | draft
  | opened
  | closed
deriving DecidableEq, Repr

/-- Modelled from the spec: the error taxonomy of the access gate. -/
inductive GateError
  | forbidden
  | notFound
deriving DecidableEq, Repr

/-- Modelled from the spec: the per-student attempt record created by the
attempt recorder, with its immutable start time and a submitted flag. -/
structure AttemptRec where
  startTime : ℕ
  submitted : Bool
deriving DecidableEq, Repr

/-- Modelled from the spec: the start gate.  A student may start a test only
when its status is Open, the student is not on the restriction list, and no
prior (submitted) attempt exists. -/
def canStart (sid : String) (status : TestStatus) (restrictedStudentIds : List String)
    (hasPriorAttempt : Bool) : Bool :=
  status == TestStatus.opened && !(restrictedStudentIds.contains sid) && !hasPriorAttempt

/-- Modelled from the spec: `beginAttempt`.  It fails with `forbidden` when
the gate refuses (test not Open, student restricted, or a submitted attempt
already exists); otherwise it creates an attempt record anchored at `now`
when none exists, and returns the existing record with its start time
unchanged when one does. -/
def beginAttempt (sid : String) (status : TestStatus)
    (restrictedStudentIds : List String) (existing : Option AttemptRec)
    (now : ℕ) : Except GateError (AttemptRec × ℕ) :=
  if status == TestStatus.opened && !(restrictedStudentIds.contains sid) then
    match existing with
    | some rec => if rec.submitted then Except.error GateError.forbidden
                  else Except.ok (rec, rec.startTime)
    | none => Except.ok ({ startTime := now, submitted := false }, now)
  else Except.error GateError.forbidden

/-- Modelled from the spec: the results gate.  Results are visible only when
an attempt exists and the results of the test are published. -/
def canViewResults (attemptExists : Bool) (resultsPublished : Bool) : Bool :=
  attemptExists && resultsPublished

/-! Helper lemmas about the merge. -/

theorem mergeSlot_subject (c : TestCategory) (v : ℚ) (g : Grade) :
    (mergeSlot c v g).subject = g.subject := by
  cases c <;> cases hf : g.firstCA <;> cases hs : g.secondCA <;> cases he : g.exam <;>
    simp [mergeSlot, hf, hs, he]

theorem gradeSlot_mergeSlot_of_some (c cw : TestCategory) (v w : ℚ) (g : Grade)
    (h : gradeSlot cw g = some w) :
    gradeSlot cw (mergeSlot c v g) = some w := by
  cases c <;> cases cw <;> cases hf : g.firstCA <;> cases hs : g.secondCA <;>
    cases he : g.exam <;> simp_all [mergeSlot, gradeSlot]

theorem gradeSlot_mergeSlot_of_none (c : TestCategory) (v : ℚ) (g : Grade)
    (h : gradeSlot c g = none) :
    gradeSlot c (mergeSlot c v g) = some v := by
  cases c <;> cases hf : g.firstCA <;> cases hs : g.secondCA <;>
    cases he : g.exam <;> simp_all [mergeSlot, gradeSlot]

theorem mergedSlotValue_nil (s : String) (c : TestCategory) :
    mergedSlotValue [] s c = none := rfl

theorem mergedSlotValue_cons (g : Grade) (gs : List Grade) (s : String) (c : TestCategory) :
    mergedSlotValue (g :: gs) s c =
      if g.subject == s then gradeSlot c g else mergedSlotValue gs s c := by
  cases h : g.subject == s <;> simp [mergedSlotValue, List.find?, h]

theorem updateGrades_slot_preserved (su : String) (cu : TestCategory) (v : ℚ)
    (s : String) (c : TestCategory) (w : ℚ) :
    ∀ grades : List Grade, mergedSlotValue grades s c = some w →
      mergedSlotValue (updateGrades su cu v grades) s c = some w := by
  intro grades
  induction grades with
  | nil => intro h; simp [mergedSlotValue_nil] at h
  | cons g gs ih =>
      intro h
      rw [mergedSlotValue_cons] at h
      rw [updateGrades]
      by_cases hu : g.subject = su
      · rw [if_pos (by simp [hu]), mergedSlotValue_cons, mergeSlot_subject]
        by_cases hgs : g.subject = s
        · rw [if_pos (by simp [hgs])] at h
          rw [if_pos (by simp [hgs])]
          exact gradeSlot_mergeSlot_of_some cu c v w g h
        · rw [if_neg (by simp [hgs])] at h
          rw [if_neg (by simp [hgs])]
          exact h
      · rw [if_neg (by simp [hu]), mergedSlotValue_cons]
        by_cases hgs : g.subject = s
        · rw [if_pos (by simp [hgs])] at h
          rw [if_pos (by simp [hgs])]
          exact h
        · rw [if_neg (by simp [hgs])] at h
          rw [if_neg (by simp [hgs])]
          exact ih h

theorem updateGrades_slot_written (s : String) (c : TestCategory) (v : ℚ) :
    ∀ grades : List Grade, mergedSlotValue grades s c = none →
      mergedSlotValue (updateGrades s c v grades) s c = some v := by
  intro grades
  induction grades with
  | nil =>
      intro _
      rw [updateGrades, mergedSlotValue_cons, mergeSlot_subject]
      rw [if_pos (by simp [freshGrade])]
      exact gradeSlot_mergeSlot_of_none c v (freshGrade s) (by cases c <;> rfl)
  | cons g gs ih =>
      intro h
      rw [mergedSlotValue_cons] at h
      by_cases hu : g.subject = s
      · rw [if_pos (by simp [hu])] at h
        rw [updateGrades, if_pos (by simp [hu]), mergedSlotValue_cons,
          mergeSlot_subject, if_pos (by simp [hu])]
        exact gradeSlot_mergeSlot_of_none c v g h
      · rw [if_neg (by simp [hu])] at h
        rw [updateGrades, if_neg (by simp [hu]), mergedSlotValue_cons,
          if_neg (by simp [hu])]
        exact ih h

theorem mergeAttempt_slot_preserved (tests : List CbtTest) (grades : List Grade)
    (a : StudentTestAttempt) (s : String) (c : TestCategory) (w : ℚ)
    (h : mergedSlotValue grades s c = some w) :
    mergedSlotValue (mergeAttempt tests grades a) s c = some w := by
  rw [mergeAttempt]
  cases hf : tests.find? (fun t => t.id == a.testId) with
  | none => exact h
  | some t =>
      simp only []
      cases hp : t.resultsPublished with
      | true =>
          rw [if_pos rfl]
          exact updateGrades_slot_preserved t.subject t.category
            (finalScoreOutOfCategory t a) s c w grades h
      | false =>
          rw [if_neg (by simp)]
          exact h

theorem foldl_mergeAttempt_slot_preserved (tests : List CbtTest)
    (l : List StudentTestAttempt) (s : String) (c : TestCategory) (w : ℚ) :
    ∀ grades : List Grade, mergedSlotValue grades s c = some w →
      mergedSlotValue (l.foldl (mergeAttempt tests) grades) s c = some w := by
  induction l with
  | nil => intro grades h; exact h
  | cons a l ih =>
      intro grades h
      rw [List.foldl_cons]
      exact ih (mergeAttempt tests grades a)
        (mergeAttempt_slot_preserved tests grades a s c w h)

theorem objMarks_sum_eq_plain (l : List ObjQuestion)
    (h : ∀ q ∈ l, ∃ m, q.marks = some m ∧ 1 ≤ m) :
    (l.map objMarksCounted).sum = (l.map (fun q => q.marks.getD 0)).sum := by
  induction l with
  | nil => rfl
  | cons q l ih =>
      obtain ⟨m, hm, hm1⟩ := h q (by simp)
      have hne : m ≠ 0 := by intro h0; rw [h0] at hm1; norm_num at hm1
      simp only [List.map_cons, List.sum_cons, objMarksCounted, jsOr, hm,
        Option.getD_some, if_neg hne]
      rw [ih (fun q hq => h q (by simp [hq]))]

theorem essayMarks_sum_eq_plain (l : List EssayQuestion)
    (h : ∀ q ∈ l, ∃ m, q.marks = some m ∧ 1 ≤ m) :
    (l.map essayMarksCounted).sum = (l.map (fun q => q.marks.getD 0)).sum := by
  induction l with
  | nil => rfl
  | cons q l ih =>
      obtain ⟨m, hm, hm1⟩ := h q (by simp)
      simp only [List.map_cons, List.sum_cons, essayMarksCounted, jsOr, hm,
        Option.getD_some]
      rw [ih (fun q hq => h q (by simp [hq]))]
      rcases eq_or_ne m 0 with h0 | h0
      · rw [if_pos h0, h0]
      · rw [if_neg h0]

theorem totalTestMarks_eq_plain (t : CbtTest)
    (hobj : ∀ q ∈ t.objectiveQuestions, ∃ m, q.marks = some m ∧ 1 ≤ m)
    (hess : ∀ q ∈ t.essayQuestions, ∃ m, q.marks = some m ∧ 1 ≤ m) :
    totalTestMarks t = plainTotalMarks t := by
  rw [totalTestMarks, totalObjMarks, totalEssayMarks, plainTotalMarks,
    objMarks_sum_eq_plain t.objectiveQuestions hobj,
    essayMarks_sum_eq_plain t.essayQuestions hess]

/-- The spec scenario test: one 2-mark objective question and one 10-mark
essay question, category Exam, results published. -/
def scenarioTest : CbtTest :=
  { id := "t1", subject := "Mathematics", category := TestCategory.exam,
    resultsPublished := true, objectiveQuestions := [{ marks := some 2 }],
    essayQuestions := [{ marks := some 10 }] }

/-- The spec scenario attempt: objective score 2 and one essay scored 7. -/
def scenarioAttempt : StudentTestAttempt :=
  { studentRegNo := "s1", testId := "t1", totalScore := 75,
    objectiveScore := 2, essayScores := [{ score := 7, feedback := "fine" }] }

/-- A published exam test with no questions at all: its merge denominator is
0. -/
def zeroMarksTest : CbtTest :=
  { id := "t0", subject := "Mathematics", category := TestCategory.exam,
    resultsPublished := true, objectiveQuestions := [], essayQuestions := [] }

/-- An attempt on `zeroMarksTest` whose stored total score is 5. -/
def zeroMarksAttempt : StudentTestAttempt :=
  { studentRegNo := "s1", testId := "t0", totalScore := 5,
    objectiveScore := 0, essayScores := [] }

/-! Claim theorems. -/

/-- Claim C1: for a published attempt on a test whose total marks are
positive (all question marks present and at least 1), the value merged into
the gradebook slot of the category of the test equals the raw fraction
(objective score plus essay scores, over total marks) times 20 for a first or
second CA test and times 50 for an exam test. -/
theorem c1_category_scaled_merge_value (tests : List CbtTest) (grades : List Grade)
    (t : CbtTest) (a : StudentTestAttempt)
    (hfind : tests.find? (fun t0 => t0.id == a.testId) = some t)
    (hpub : t.resultsPublished = true)
    (hobj : ∀ q ∈ t.objectiveQuestions, ∃ m, q.marks = some m ∧ 1 ≤ m)
    (hess : ∀ q ∈ t.essayQuestions, ∃ m, q.marks = some m ∧ 1 ≤ m)
    (hpos : 0 < plainTotalMarks t)
    (hempty : mergedSlotValue grades t.subject t.category = none) :
    mergedSlotValue (mergeAttempt tests grades a) t.subject t.category =
      some ((a.objectiveScore + essayScoreSum a) / plainTotalMarks t
        * categoryScale t.category) := by
  have htot := totalTestMarks_eq_plain t hobj hess
  have hpos2 : 0 < totalTestMarks t := by rw [htot]; exact hpos
  have hval : finalScoreOutOfCategory t a =
      (a.objectiveScore + essayScoreSum a) / plainTotalMarks t
        * categoryScale t.category := by
    rw [finalScoreOutOfCategory, if_pos hpos2]
    cases t.category <;> simp [categoryScale, htot]
  rw [mergeAttempt]
  cases hf2 : tests.find? (fun t0 => t0.id == a.testId) with
  | none => rw [hf2] at hfind; simp at hfind
  | some t2 =>
      have ht2 : t2 = t := by rw [hf2] at hfind; exact Option.some_inj.mp hfind
      subst ht2
      simp only []
      rw [if_pos hpub, hval]
      exact updateGrades_slot_written _ _ _ grades hempty

/-- Claim C1, witness: the spec scenario.  One 2-mark objective question
answered correctly and a 10-mark essay scored 7 on a published exam test
merge 75/2 = 37.5 into the exam slot. -/
theorem c1_scenario_witness :
    mergedSlotValue (mergeAttempt [scenarioTest] [] scenarioAttempt)
      "Mathematics" TestCategory.exam = some (75 / 2 : Rat) := by
  have h := c1_category_scaled_merge_value [scenarioTest] [] scenarioTest
    scenarioAttempt rfl rfl
    (by intro q hq; simp [scenarioTest] at hq; subst hq; exact ⟨2, rfl, by norm_num⟩)
    (by intro q hq; simp [scenarioTest] at hq; subst hq; exact ⟨10, rfl, by norm_num⟩)
    (by norm_num [plainTotalMarks, scenarioTest])
    rfl
  exact h.trans (by norm_num [essayScoreSum, plainTotalMarks, categoryScale,
    scenarioTest, scenarioAttempt])

/-- Claim C2, counterexample: on a published exam test with no questions
(total marks 0) and an attempt whose stored total score is 5, the merge puts
5, not 0, into the exam slot. -/
theorem c2_counterexample :
    mergedSlotValue (mergedGrades [zeroMarksTest] [zeroMarksAttempt] "s1" [])
      "Mathematics" TestCategory.exam = some (5 : Rat)
    ∧ (5 : Rat) ≠ 0 := by
  constructor
  · simp [mergedGrades, mergeAttempt, finalScoreOutOfCategory, totalTestMarks,
      totalObjMarks, totalEssayMarks, updateGrades, mergedSlotValue, mergeSlot,
      freshGrade, gradeSlot, List.find?, List.filter, List.foldl,
      zeroMarksTest, zeroMarksAttempt]
  · norm_num

/-- Claim C2 (amended): when the total marks of the test are 0 the modelled
normalization step stores final percentage 0, but the gradebook merge falls
back to the stored `attempt.totalScore` and writes that value — not 0 —
into the category slot. -/
theorem c2_amended_zero_total_marks (tests : List CbtTest) (grades : List Grade)
    (t : CbtTest) (a : StudentTestAttempt) (pts : Rat)
    (hfind : tests.find? (fun t0 => t0.id == a.testId) = some t)
    (hpub : t.resultsPublished = true)
    (htot : totalTestMarks t = 0)
    (hempty : mergedSlotValue grades t.subject t.category = none) :
    finalPercentage 0 pts = 0
    ∧ mergedSlotValue (mergeAttempt tests grades a) t.subject t.category =
        some a.totalScore := by
  constructor
  · rw [finalPercentage, if_pos rfl]
  · have hval : finalScoreOutOfCategory t a = a.totalScore := by
      rw [finalScoreOutOfCategory, if_neg (by simp [htot])]
    rw [mergeAttempt]
    cases hf2 : tests.find? (fun t0 => t0.id == a.testId) with
    | none => rw [hf2] at hfind; simp at hfind
    | some t2 =>
        have ht2 : t2 = t := by rw [hf2] at hfind; exact Option.some_inj.mp hfind
        subst ht2
        simp only []
        rw [if_pos hpub, hval]
        exact updateGrades_slot_written _ _ _ grades hempty

/-- Claim C2 (amended), witness: the concrete zero-total-marks test from the
counterexample, settled through the amended theorem. -/
theorem c2_amended_witness :
    finalPercentage 0 (3 : Rat) = 0
    ∧ mergedSlotValue (mergeAttempt [zeroMarksTest] [] zeroMarksAttempt)
        "Mathematics" TestCategory.exam = some (5 : Rat) := by
  have h := c2_amended_zero_total_marks [zeroMarksTest] [] zeroMarksTest
    zeroMarksAttempt 3 rfl rfl
    (by norm_num [totalTestMarks, totalObjMarks, totalEssayMarks, zeroMarksTest])
    rfl
  exact h

/-- Claim C10: in the denominator of the merge, an objective question with a
missing or zero marks field counts as 1 mark, an essay question with a
missing or zero marks field counts as 0 marks, and when every question has a
present marks value of at least 1 the denominator equals the plain sum of all
question marks. -/
theorem c10_denominator_counting :
    (∀ q : ObjQuestion, q.marks = none ∨ q.marks = some 0 → objMarksCounted q = 1)
    ∧ (∀ q : EssayQuestion, q.marks = none ∨ q.marks = some 0 → essayMarksCounted q = 0)
    ∧ (∀ t : CbtTest,
        (∀ q ∈ t.objectiveQuestions, ∃ m, q.marks = some m ∧ 1 ≤ m) →
        (∀ q ∈ t.essayQuestions, ∃ m, q.marks = some m ∧ 1 ≤ m) →
        totalTestMarks t = plainTotalMarks t) := by
  refine ⟨?_, ?_, fun t hobj hess => totalTestMarks_eq_plain t hobj hess⟩
  · rintro q (h | h) <;> simp [objMarksCounted, jsOr, h]
  · rintro q (h | h) <;> simp [essayMarksCounted, jsOr, h]

/-- Claim C10, witness: a missing-marks objective question counts as 1, a
zero-marks essay question counts as 0, and for a test with marks 2 and 10 the
denominator is the plain sum. -/
theorem c10_witness :
    objMarksCounted { marks := none } = 1
    ∧ essayMarksCounted { marks := some 0 } = 0
    ∧ totalTestMarks
        { id := "t1", subject := "Mathematics", category := TestCategory.exam,
          resultsPublished := true, objectiveQuestions := [{ marks := some 2 }],
          essayQuestions := [{ marks := some 10 }] } =
      plainTotalMarks
        { id := "t1", subject := "Mathematics", category := TestCategory.exam,
          resultsPublished := true, objectiveQuestions := [{ marks := some 2 }],
          essayQuestions := [{ marks := some 10 }] } := by
  refine ⟨c10_denominator_counting.1 _ (Or.inl rfl),
    c10_denominator_counting.2.1 _ (Or.inr rfl),
    c10_denominator_counting.2.2 _ ?_ ?_⟩
  · intro q hq; simp at hq; subst hq; exact ⟨2, rfl, by norm_num⟩
  · intro q hq; simp at hq; subst hq; exact ⟨10, rfl, by norm_num⟩

/-- Claim C3: for an essay question with marks at least 1 and a non-empty
answer, the recorded score is the evaluator score clamped to the interval
from 0 to the marks of the question, so it always lies in that interval even
for negative or excessive evaluator scores. -/
theorem c3_essay_score_clamped (q : ScoredEssayQuestion) (answer : String)
    (r : EvaluatorResponse) (hmarks : 1 ≤ q.marks) (hans : answer ≠ "") :
    (recordEssayResult q answer (some r)).score = max 0 (min r.score q.marks)
    ∧ 0 ≤ (recordEssayResult q answer (some r)).score
    ∧ (recordEssayResult q answer (some r)).score ≤ q.marks := by
  have hrec : recordEssayResult q answer (some r) =
      { score := max 0 (min r.score q.marks), feedback := r.feedback } := by
    rw [recordEssayResult, if_neg hans]
  refine ⟨by rw [hrec], by rw [hrec]; exact le_max_left 0 _, ?_⟩
  rw [hrec]
  exact max_le (by linarith) (min_le_right _ _)

/-- Claim C3, witness: an evaluator score of 15 on a 10-mark question is
recorded as 10, inside the interval from 0 to 10. -/
theorem c3_clamp_witness :
    (recordEssayResult { id := "e1", marks := 10 } "my essay"
        (some { score := 15, feedback := "fb", isCompliant := true })).score =
      max 0 (min (15 : Rat) 10)
    ∧ (0 : Rat) ≤ (recordEssayResult { id := "e1", marks := 10 } "my essay"
        (some { score := 15, feedback := "fb", isCompliant := true })).score
    ∧ (recordEssayResult { id := "e1", marks := 10 } "my essay"
        (some { score := 15, feedback := "fb", isCompliant := true })).score ≤ 10 :=
  c3_essay_score_clamped { id := "e1", marks := 10 } "my essay"
    { score := 15, feedback := "fb", isCompliant := true }
    (by norm_num) (by decide)

/-- Claim C4: when the evaluator call for an answered essay question fails,
the scoring pass records score 0 with the fallback feedback for that
question, the pass still returns a successful result, and no evaluator
failure is propagated as an error. -/
theorem c4_evaluator_failure_absorbed (qs : List ScoredEssayQuestion)
    (answers : String → String) (outcomes : String → Option EvaluatorResponse)
    (q : ScoredEssayQuestion) (hq : q ∈ qs) (hans : answers q.id ≠ "")
    (hfail : outcomes q.id = none) :
    (∀ e : String, scoreEssays qs answers outcomes ≠ Except.error e)
    ∧ ∃ results, scoreEssays qs answers outcomes = Except.ok results
        ∧ ({ score := 0,
             feedback := "<evaluation unavailable, requires manual review>" } :
            EssayScoreEntry) ∈ results := by
  refine ⟨fun e => by simp [scoreEssays], ?_⟩
  refine ⟨_, rfl, ?_⟩
  refine List.mem_map.mpr ⟨q, hq, ?_⟩
  rw [hfail, recordEssayResult, if_neg hans]

/-- Claim C4, witness: a single answered essay question with an unavailable
evaluator is recorded with the fallback entry and the pass succeeds. -/
theorem c4_outage_witness :
    (∀ e : String,
      scoreEssays [{ id := "e1", marks := 10 }] (fun _ => "my essay")
          (fun _ => none) ≠ Except.error e)
    ∧ ∃ results,
        scoreEssays [{ id := "e1", marks := 10 }] (fun _ => "my essay")
            (fun _ => none) = Except.ok results
        ∧ ({ score := 0,
             feedback := "<evaluation unavailable, requires manual review>" } :
            EssayScoreEntry) ∈ results :=
  c4_evaluator_failure_absorbed [{ id := "e1", marks := 10 }]
    (fun _ => "my essay") (fun _ => none) { id := "e1", marks := 10 }
    (by simp) (by decide) rfl

/-- Claim C5: submission is idempotent.  Submitting against an
already-submitted attempt is a no-op that keeps the stored scoring result,
and after a first submit followed by a racing second submit exactly the first
result is persisted. -/
theorem c5_submission_idempotent :
    (∀ (r c : ScoringResult), submitOnce (some r) c = some r)
    ∧ (∀ (c c2 : ScoringResult),
        submitOnce (submitOnce none c) c2 = submitOnce none c
        ∧ submitOnce none c = some c) :=
  ⟨fun _ _ => rfl, fun _ _ => ⟨rfl, rfl⟩⟩

/-- Claim C5, witness: a concrete double submission keeps the first stored
result. -/
theorem c5_witness :
    submitOnce
        (submitOnce none { objectiveScore := 2, essayResults := [], finalPct := 75 })
        { objectiveScore := 9, essayResults := [], finalPct := 10 } =
      submitOnce none { objectiveScore := 2, essayResults := [], finalPct := 75 } :=
  (c5_submission_idempotent.2
      { objectiveScore := 2, essayResults := [], finalPct := 75 }
      { objectiveScore := 9, essayResults := [], finalPct := 10 }).1

/-- Claim C6: the first successful `beginAttempt` anchors the start time at
the current instant, and a second call for the same pair returns the existing
record with its start time unchanged, ignoring the new clock reading. -/
theorem c6_startTime_set_once (sid : String) (restricted : List String)
    (now1 now2 : ℕ) (hres : restricted.contains sid = false) :
    beginAttempt sid TestStatus.opened restricted none now1 =
      Except.ok ({ startTime := now1, submitted := false }, now1)
    ∧ beginAttempt sid TestStatus.opened restricted
        (some { startTime := now1, submitted := false }) now2 =
      Except.ok ({ startTime := now1, submitted := false }, now1) := by
  constructor
  · rw [beginAttempt, if_pos (by rw [hres]; simp)]
  · rw [beginAttempt, if_pos (by rw [hres]; simp)]
    rfl

/-- Claim C6, witness: begin at instant 3, reload at instant 9, and the
returned start time is 3 both times. -/
theorem c6_witness :
    beginAttempt "s1" TestStatus.opened [] none 3 =
      Except.ok ({ startTime := 3, submitted := false }, 3)
    ∧ beginAttempt "s1" TestStatus.opened []
        (some { startTime := 3, submitted := false }) 9 =
      Except.ok ({ startTime := 3, submitted := false }, 3) :=
  c6_startTime_set_once "s1" [] 3 9 rfl

/-- Claim C7: a student on the restriction list of a test can never start it:
`canStart` is false and `beginAttempt` fails with `forbidden` whatever the
status, the prior-attempt flag, the stored record and the clock. -/
theorem c7_restricted_student_blocked (sid : String) (status : TestStatus)
    (restricted : List String) (hasPrior : Bool) (existing : Option AttemptRec)
    (now : ℕ) (hres : sid ∈ restricted) :
    canStart sid status restricted hasPrior = false
    ∧ beginAttempt sid status restricted existing now =
        Except.error GateError.forbidden := by
  have hc : restricted.contains sid = true := by
    simpa using hres
  constructor
  · rw [canStart, hc]; simp
  · rw [beginAttempt.eq_def, if_neg (by rw [hc]; simp)]

/-- Claim C7, witness: the restricted student cannot start an Open test with
no prior attempt. -/
theorem c7_witness :
    canStart "s1" TestStatus.opened ["s1"] false = false
    ∧ beginAttempt "s1" TestStatus.opened ["s1"] none 0 =
        Except.error GateError.forbidden :=
  c7_restricted_student_blocked "s1" TestStatus.opened ["s1"] false none 0
    (by simp)

/-- Claim C8: the gradebook merge never overwrites a slot that already holds
a grade: a value present in a category slot before the merge is still there,
unchanged, after every attempt has been folded in. -/
theorem c8_slot_never_overwritten (tests : List CbtTest)
    (attempts : List StudentTestAttempt) (regNo s : String) (c : TestCategory)
    (grades : List Grade) (w : Rat)
    (h : mergedSlotValue grades s c = some w) :
    mergedSlotValue (mergedGrades tests attempts regNo grades) s c = some w := by
  rw [mergedGrades]
  exact foldl_mergeAttempt_slot_preserved tests _ s c w grades h

/-- Claim C8, witness: a manually entered first-CA grade of 15 survives the
merge of a published first-CA attempt for the same subject. -/
theorem c8_witness :
    mergedSlotValue
      (mergedGrades
        [{ id := "t1", subject := "Mathematics", category := TestCategory.firstCA,
           resultsPublished := true, objectiveQuestions := [{ marks := some 2 }],
           essayQuestions := [] }]
        [{ studentRegNo := "s1", testId := "t1", totalScore := 100,
           objectiveScore := 2, essayScores := [] }]
        "s1"
        [{ subject := "Mathematics", firstCA := some 15, secondCA := none,
           project := none, exam := none }])
      "Mathematics" TestCategory.firstCA = some 15 :=
  c8_slot_never_overwritten _ _ _ _ _ _ _ rfl

/-- Claim C9: results of an unpublished test are invisible and unmerged:
`canViewResults` is false whenever the published flag is false, whatever the
attempt state, and the merge leaves the grade rows untouched for an attempt
whose test has an unset published flag. -/
theorem c9_unpublished_hidden_and_unmerged :
    (∀ attemptExists : Bool, canViewResults attemptExists false = false)
    ∧ (∀ (tests : List CbtTest) (grades : List Grade) (a : StudentTestAttempt)
        (t : CbtTest),
        tests.find? (fun t0 => t0.id == a.testId) = some t →
        t.resultsPublished = false →
        mergeAttempt tests grades a = grades) := by
  constructor
  · intro b; simp [canViewResults]
  · intro tests grades a t hfind hpub
    rw [mergeAttempt]
    cases hf2 : tests.find? (fun t0 => t0.id == a.testId) with
    | none => rfl
    | some t2 =>
        have ht2 : t2 = t := by rw [hf2] at hfind; exact Option.some_inj.mp hfind
        subst ht2
        simp only []
        rw [if_neg (by simp [hpub])]

/-- Claim C9, witness: an existing attempt on an unpublished test is neither
viewable nor merged. -/
theorem c9_witness :
    canViewResults true false = false
    ∧ mergeAttempt
        [{ id := "t1", subject := "Mathematics", category := TestCategory.exam,
           resultsPublished := false, objectiveQuestions := [],
           essayQuestions := [] }]
        []
        { studentRegNo := "s1", testId := "t1", totalScore := 40,
          objectiveScore := 0, essayScores := [] } = [] :=
  ⟨c9_unpublished_hidden_and_unmerged.1 true,
    c9_unpublished_hidden_and_unmerged.2
      [{ id := "t1", subject := "Mathematics", category := TestCategory.exam,
         resultsPublished := false, objectiveQuestions := [],
         essayQuestions := [] }]
      []
      { studentRegNo := "s1", testId := "t1", totalScore := 40,
        objectiveScore := 0, essayScores := [] }
      { id := "t1", subject := "Mathematics", category := TestCategory.exam,
        resultsPublished := false, objectiveQuestions := [],
        essayQuestions := [] }
      rfl rfl⟩

end EnconCbt
